import Mathlib

/- Verification of the background service worker of the Hoosat wallet web
extension (src/src/background/background.ts): a shallow embedding of its
pending-request / approval-resolution state machine, session guard and RPC
dispatch, together with theorems settling the specified properties. -/

/-- Error codes of the RPC layer. The constructors UNAUTHORIZED,
UNSUPPORTED_METHOD, USER_REJECTED and DISCONNECTED are the members of the
ErrorCode enum that background.ts references. INVALID_PARAMS is the
param-validation code that the specification document names; background.ts
never uses it, which is what the theorems below about parameter validation
compare against. -/
inductive ErrorCode where
  | UNAUTHORIZED
  | UNSUPPORTED_METHOD
  | USER_REJECTED
  | DISCONNECTED
  | INVALID_PARAMS
deriving DecidableEq

/-- RPC error shape produced by createRPCError in background.ts. -/
structure RPCError where
  code : ErrorCode
  message : String
deriving DecidableEq

/-- RPC methods dispatched by handleRPCRequest. The named constructors are
the members of the RPCMethod enum that background.ts references; other
carries any unrecognized method string, routed to the default branch. -/
inductive RPCMethod where
  | REQUEST_ACCOUNTS
  | GET_ACCOUNTS
  | GET_BALANCE
  | SEND_TRANSACTION
  | GET_NETWORK
  | other : String → RPCMethod
deriving DecidableEq

/-- Request parameters as background.ts reads them: params.«to» and
params.address are optional strings (none models the JS undefined, and an
empty string is also falsy under the ! tests of the code), and
params.amount is an optional integer (none models undefined, the value the
code tests for with a strict equality). -/
structure RPCParams where
  «to» : Option String
  amount : Option Int
  address : Option String
deriving DecidableEq

/-- JS falsiness of an optional string field: undefined or the empty
string. -/
def strFalsy : Option String → Bool
  | none => true
  | some s => s = ""

/-- Pending DApp request record, as stored in the pendingRequests map. -/
structure DAppRequest where
  id : String
  origin : String
  method : RPCMethod
  params : RPCParams
  timestamp : Nat
deriving DecidableEq

/-- Values a successful RPC dispatch or settlement can carry. -/
inductive RPCValue where
  | accounts : List String → RPCValue
  | balance : String → RPCValue
  | txId : String → RPCValue
  | network : String → RPCValue
deriving DecidableEq

/-- Failures: either an RPCError thrown via createRPCError, or a plain JS
Error with a message (such as the Request-not-found error or a rejection
coming out of chrome.action.openPopup). -/
inductive Failure where
  | rpc : RPCError → Failure
  | jsError : String → Failure
deriving DecidableEq

/-- Result of a dispatch at its first suspension-free point: either an
immediate value, or the caller is suspended on the approval waiter with the
given request id (the promise returned by waitForApproval). -/
inductive Outcome where
  | value : RPCValue → Outcome
  | suspended : String → Outcome
deriving DecidableEq

/-- Settlement delivered to a suspended caller: the resolve or the reject
continuation of its waiter fired with the given payload. -/
inductive Settled where
  | success : RPCValue → Settled
  | failure : RPCError → Settled
deriving DecidableEq

/-- Lookup in an association-list model of a JS Map: first binding of the
key, as Map.get. -/
def mapGet (k : String) : List (String × α) → Option α
  | [] => none
  | (k₁, v₁) :: rest => if k₁ = k then some v₁ else mapGet k rest

/-- Update in an association-list model of a JS Map: replace the binding in
place if the key is present, append otherwise, as Map.set. -/
def mapSet (k : String) (v : α) : List (String × α) → List (String × α)
  | [] => [(k, v)]
  | (k₁, v₁) :: rest => if k₁ = k then (k, v) :: rest else (k₁, v₁) :: mapSet k v rest

/-- Removal in an association-list model of a JS Map: drop every binding of
the key, as Map.delete on a map whose keys are unique. -/
def mapDelete (k : String) : List (String × α) → List (String × α)
  | [] => []
  | (k₁, v₁) :: rest => if k₁ = k then mapDelete k rest else (k₁, v₁) :: mapDelete k rest

/-- Membership insert for the set of live approval resolvers. -/
def setInsert (k : String) (l : List String) : List String :=
  if l.contains k then l else k :: l

/-- Removal of every occurrence of an id from the resolver set. -/
def setErase (k : String) : List String → List String
  | [] => []
  | k₁ :: rest => if k₁ = k then setErase k rest else k₁ :: setErase k rest

/-- Whole observable state of the background script: the two id-keyed
registries (pendingRequests and approvalResolvers, the latter kept as the
set of ids holding a live resolve/reject pair), the session-guard state
(isUnlocked and whether the sessionTimeout timer is armed), the
Authorization Store contents (connectedSites), plus observation logs: the
settlements delivered to suspended callers in order, the addresses the
Wallet Authority was asked a balance for, and how many times its
sendTransaction was invoked. -/
structure World where
  pendingRequests : List (String × DAppRequest)
  approvalResolvers : List String
  settlements : List (String × Settled)
  connectedSites : List String
  isUnlocked : Bool
  sessionTimerArmed : Bool
  balanceCalls : List String
  submitCalls : Nat
deriving DecidableEq

/-- External collaborator behavior for one step: the current wallet of the
storage layer, the outcome the Wallet Authority would return for a
transaction submission, its balance and network answers, the outcome of
chrome.action.openPopup, and the Date.now clock reading. -/
structure Env where
  currentWallet : Option String
  sendTransactionResult : Except String String
  balanceResult : String
  network : String
  openPopup : Except String Unit
  now : Nat

/-- Modelled from the spec: isOriginConnected of ../shared/storage (absent
from src) answers whether the origin is recorded as authorized. -/
def isOriginConnected (origin : String) (w : World) : Bool :=
  w.connectedSites.contains origin

/-- Modelled from the spec: addConnectedSite of ../shared/storage (absent
from src) records the origin as authorized. -/
def addConnectedSite (origin : String) (sites : List String) : List String :=
  if sites.contains origin then sites else sites ++ [origin]

/-- Address list derived from getCurrentWallet: wallet present gives the
one-element list of its address, absent gives the empty list. -/
def walletAddrs (env : Env) : List String :=
  match env.currentWallet with
  | some a => [a]
  | none => []

/-- resetSessionTimeout: clearTimeout on any armed timer then setTimeout a
fresh one, so afterwards exactly one inactivity timer is armed,
unconditionally. -/
def resetSessionTimeout (w : World) : World :=
  { w with sessionTimerArmed := true }

/-- Synchronous part of waitForApproval: register the resolve/reject pair
for the id in approvalResolvers. The later firing of the scheduled timeout
is the separate transition fireTimeout. -/
def waitRegister (requestId : String) (w : World) : World :=
  { w with approvalResolvers := setInsert requestId w.approvalResolvers }

/-- Timeout callback of waitForApproval: if the resolver for the id is
still registered, delete it and reject the suspended caller with the
USER_REJECTED Request-timeout error; otherwise do nothing. It does not
touch pendingRequests. -/
def fireTimeout (requestId : String) (w : World) : World :=
  if w.approvalResolvers.contains requestId then
    { w with
        approvalResolvers := setErase requestId w.approvalResolvers,
        settlements :=
          w.settlements ++ [(requestId, .failure ⟨.USER_REJECTED, "Request timeout"⟩)] }
  else w

/-- resolveApproval: if a resolver is registered for the id, fire its
resolve continuation with the value and delete it; otherwise no-op. -/
def resolveApproval (requestId : String) (value : RPCValue) (w : World) : World :=
  if w.approvalResolvers.contains requestId then
    { w with
        approvalResolvers := setErase requestId w.approvalResolvers,
        settlements := w.settlements ++ [(requestId, .success value)] }
  else w

/-- rejectApproval: if a resolver is registered for the id, fire its reject
continuation with the error and delete it; otherwise no-op. -/
def rejectApproval (requestId : String) (error : RPCError) (w : World) : World :=
  if w.approvalResolvers.contains requestId then
    { w with
        approvalResolvers := setErase requestId w.approvalResolvers,
        settlements := w.settlements ++ [(requestId, .failure error)] }
  else w

/-- handleRequestAccounts: an already-connected origin is answered
synchronously with the current address list; otherwise a pending request
keyed connect_ plus the clock reading is registered, the popup is opened
(a rejection of which propagates out of the handler as the thrown
failure), and the caller is suspended on the waiter. -/
def handleRequestAccounts (env : Env) (origin : String) (w : World) :
    Except Failure Outcome × World :=
  if isOriginConnected origin w then
    (.ok (.value (.accounts (walletAddrs env))), w)
  else
    let requestId := "connect_" ++ toString env.now
    let request : DAppRequest :=
      { id := requestId, origin := origin, method := .REQUEST_ACCOUNTS,
        params := { «to» := none, amount := none, address := none },
        timestamp := env.now }
    let w₁ := { w with pendingRequests := mapSet requestId request w.pendingRequests }
    match env.openPopup with
    | .error e => (.error (.jsError e), w₁)
    | .ok _ => (.ok (.suspended requestId), waitRegister requestId w₁)

/-- handleGetAccounts: empty list for a non-connected origin, else the
current address list. -/
def handleGetAccounts (env : Env) (origin : String) (w : World) :
    Except Failure Outcome × World :=
  if isOriginConnected origin w then
    (.ok (.value (.accounts (walletAddrs env))), w)
  else
    (.ok (.value (.accounts [])), w)

/-- handleGetBalance: a falsy address throws the UNSUPPORTED_METHOD
Address-is-required error before the Wallet Authority is consulted;
otherwise the Authority balance query is invoked and answered. -/
def handleGetBalance (env : Env) (params : RPCParams) (w : World) :
    Except Failure Outcome × World :=
  match params.address with
  | none => (.error (.rpc ⟨.UNSUPPORTED_METHOD, "Address is required"⟩), w)
  | some a =>
    if a = "" then
      (.error (.rpc ⟨.UNSUPPORTED_METHOD, "Address is required"⟩), w)
    else
      (.ok (.value (.balance env.balanceResult)),
        { w with balanceCalls := w.balanceCalls ++ [a] })

/-- handleSendTransaction: requires a connected origin (UNAUTHORIZED
otherwise) and validated params (a truthy to field and a defined amount,
UNSUPPORTED_METHOD Invalid-transaction-params otherwise), then registers a
pending request keyed tx_ plus the clock reading, opens the popup (a
rejection of which propagates out of the handler), and suspends the caller
on the waiter. -/
def handleSendTransaction (env : Env) (origin : String) (params : RPCParams) (w : World) :
    Except Failure Outcome × World :=
  if isOriginConnected origin w then
    if strFalsy params.«to» || params.amount == none then
      (.error (.rpc ⟨.UNSUPPORTED_METHOD, "Invalid transaction params"⟩), w)
    else
      let requestId := "tx_" ++ toString env.now
      let request : DAppRequest :=
        { id := requestId, origin := origin, method := .SEND_TRANSACTION,
          params := params, timestamp := env.now }
      let w₁ := { w with pendingRequests := mapSet requestId request w.pendingRequests }
      match env.openPopup with
      | .error e => (.error (.jsError e), w₁)
      | .ok _ => (.ok (.suspended requestId), waitRegister requestId w₁)
  else
    (.error (.rpc ⟨.UNAUTHORIZED, "Origin not connected"⟩), w)

/-- handleGetNetwork: the Wallet Authority network identity, always
synchronous. -/
def handleGetNetwork (env : Env) (w : World) : Except Failure Outcome × World :=
  (.ok (.value (.network env.network)), w)

/-- handleRPCRequest: the locked-session gate (every method but
GET_NETWORK fails UNAUTHORIZED Wallet-is-locked while locked), then the
unconditional resetSessionTimeout, then the per-method routing with
unrecognized methods failing UNSUPPORTED_METHOD. -/
def handleRPCRequest (env : Env) (origin : String) (method : RPCMethod)
    (params : RPCParams) (w : World) : Except Failure Outcome × World :=
  if w.isUnlocked = false ∧ method ≠ .GET_NETWORK then
    (.error (.rpc ⟨.UNAUTHORIZED, "Wallet is locked"⟩), w)
  else
    let w := resetSessionTimeout w
    match method with
    | .REQUEST_ACCOUNTS => handleRequestAccounts env origin w
    | .GET_ACCOUNTS => handleGetAccounts env origin w
    | .GET_BALANCE => handleGetBalance env params w
    | .SEND_TRANSACTION => handleSendTransaction env origin params w
    | .GET_NETWORK => handleGetNetwork env w
    | .other s =>
      (.error (.rpc ⟨.UNSUPPORTED_METHOD, "Method not supported: " ++ s⟩), w)

/-- handleConnectionApproval: absent id throws the Request-not-found
error; on approval the origin is recorded via addConnectedSite and the
waiter resolved with the current address list, on rejection the waiter is
rejected USER_REJECTED; in either case the pending entry is deleted last
and success is returned. -/
def handleConnectionApproval (env : Env) (requestId : String) (approved : Bool) (w : World) :
    Except Failure Unit × World :=
  match mapGet requestId w.pendingRequests with
  | none => (.error (.jsError "Request not found"), w)
  | some request =>
    let w₁ :=
      if approved then
        let w₀ := { w with connectedSites := addConnectedSite request.origin w.connectedSites }
        resolveApproval requestId (.accounts (walletAddrs env)) w₀
      else
        rejectApproval requestId ⟨.USER_REJECTED, "User rejected connection"⟩ w
    (.ok (), { w₁ with pendingRequests := mapDelete requestId w₁.pendingRequests })

/-- handleTransactionApproval: absent id throws the Request-not-found
error; on approval the Wallet Authority submit is invoked once and its
success resolves the waiter with the transaction id while its failure
rejects the waiter DISCONNECTED with the Authority message; on rejection
the waiter is rejected USER_REJECTED; in every present-id case the pending
entry is deleted last and success is returned. -/
def handleTransactionApproval (env : Env) (requestId : String) (approved : Bool) (w : World) :
    Except Failure Unit × World :=
  match mapGet requestId w.pendingRequests with
  | none => (.error (.jsError "Request not found"), w)
  | some _request =>
    let w₁ :=
      if approved then
        let w₀ := { w with submitCalls := w.submitCalls + 1 }
        match env.sendTransactionResult with
        | .ok txId => resolveApproval requestId (.txId txId) w₀
        | .error msg => rejectApproval requestId ⟨.DISCONNECTED, msg⟩ w₀
      else
        rejectApproval requestId ⟨.USER_REJECTED, "User rejected transaction"⟩ w
    (.ok (), { w₁ with pendingRequests := mapDelete requestId w₁.pendingRequests })

/-- Events that can race on one request id: the two approval-channel
operations in their approved and rejected forms, and the waiter timeout. -/
inductive ApprovalEvent where
  | connApprove
  | connReject
  | txApprove
  | txReject
  | timeout
deriving DecidableEq

/-- State effect of processing one event for the given id (approval-channel
results are discarded, only the state transition is kept). -/
def processEvent (env : Env) (requestId : String) (e : ApprovalEvent) (w : World) : World :=
  match e with
  | .connApprove => (handleConnectionApproval env requestId true w).2
  | .connReject => (handleConnectionApproval env requestId false w).2
  | .txApprove => (handleTransactionApproval env requestId true w).2
  | .txReject => (handleTransactionApproval env requestId false w).2
  | .timeout => fireTimeout requestId w

/-- Sequential processing of a sequence of events racing on one id. -/
def processEvents (env : Env) (requestId : String) : List ApprovalEvent → World → World
  | [], w => w
  | e :: es, w => processEvents env requestId es (processEvent env requestId e w)

/-- Lookup of a key just set in the map model finds the new value. -/
theorem mapGet_mapSet_self (k : String) (v : α) (l : List (String × α)) :
    mapGet k (mapSet k v l) = some v := by
  induction l with
  | nil => simp [mapSet, mapGet]
  | cons p rest ih =>
    obtain ⟨k₁, v₁⟩ := p
    by_cases h : k₁ = k
    · simp [mapSet, mapGet, h]
    · simp [mapSet, mapGet, h, ih]

/-- Lookup of a key just deleted from the map model finds nothing. -/
theorem mapGet_mapDelete_self (k : String) (l : List (String × α)) :
    mapGet k (mapDelete k l) = none := by
  induction l with
  | nil => rfl
  | cons p rest ih =>
    obtain ⟨k₁, v₁⟩ := p
    by_cases h : k₁ = k
    · simp [mapDelete, h, ih]
    · simp [mapDelete, mapGet, h, ih]

/-- An origin just recorded by addConnectedSite is a member of the
resulting site list. -/
theorem mem_addConnectedSite_self (origin : String) (sites : List String) :
    origin ∈ addConnectedSite origin sites := by
  unfold addConnectedSite
  split
  · next h => simpa using h
  · simp

/-- Collaborator fixture: wallet present, Authority submission succeeding,
popup opening succeeding, clock reading 1000. -/
def envA : Env :=
  { currentWallet := some "hoosat:qq0", sendTransactionResult := .ok "txid1",
    balanceResult := "100", network := "hoosat-mainnet", openPopup := .ok (), now := 1000 }

/-- Collaborator fixture where chrome.action.openPopup rejects. -/
def envPopupFail : Env := { envA with openPopup := .error "could not open popup" }

/-- Collaborator fixture where the Wallet Authority rejects the
transaction submission. -/
def envTxFail : Env := { envA with sendTransactionResult := .error "Insufficient funds" }

/-- Valid transaction parameters: truthy destination, defined amount. -/
def txParamsA : RPCParams := { «to» := some "hoosat:qq1", amount := some 5, address := none }

/-- Transaction parameters lacking the destination field. -/
def noToParams : RPCParams := { «to» := none, amount := some 5, address := none }

/-- Parameters with no fields set, as the empty params object. -/
def emptyParams : RPCParams := { «to» := none, amount := none, address := none }

/-- Registered pending transaction request with id tx_1000. -/
def reqTx : DAppRequest :=
  { id := "tx_1000", origin := "https://dapp.example", method := .SEND_TRANSACTION,
    params := txParamsA, timestamp := 1000 }

/-- Registered pending connection request with id connect_7. -/
def reqConn : DAppRequest :=
  { id := "connect_7", origin := "https://dapp.example", method := .REQUEST_ACCOUNTS,
    params := emptyParams, timestamp := 7 }

/-- Unlocked state with no pending requests, no resolvers and no connected
sites. -/
def wEmpty : World :=
  { pendingRequests := [], approvalResolvers := [], settlements := [], connectedSites := [],
    isUnlocked := true, sessionTimerArmed := true, balanceCalls := [], submitCalls := 0 }

/-- Unlocked state whose only connected site is the dapp origin. -/
def wConnectedOnly : World := { wEmpty with connectedSites := ["https://dapp.example"] }

/-- State right after a send_transaction dispatch suspended its caller:
the tx_1000 entry is pending and its resolver is live. -/
def wSuspendedTx : World :=
  { wConnectedOnly with pendingRequests := [("tx_1000", reqTx)], approvalResolvers := ["tx_1000"] }

/-- State right after a request_accounts dispatch suspended its caller:
the connect_7 entry is pending and its resolver is live. -/
def wSuspendedConn : World :=
  { wEmpty with pendingRequests := [("connect_7", reqConn)], approvalResolvers := ["connect_7"] }

/-- State after the connect_7 waiter timed out: the resolver is gone but
the pending entry is still registered. -/
def wConnTimedOut : World := { wSuspendedConn with approvalResolvers := [] }

/-- Locked state with no armed inactivity timer. -/
def wLocked : World := { wEmpty with isUnlocked := false, sessionTimerArmed := false }

/-- Registry state after two unauthorized request_accounts registrations
processed at the same clock reading 1000, first from origin a then from
origin b. -/
def wCollide : World :=
  (handleRequestAccounts envA "https://b.example"
    (handleRequestAccounts envA "https://a.example" wEmpty).2).2

/-- Claim C1: on the race of approve, reject and timeout events over one
request id, the code does deliver exactly one settlement to the suspended
caller, but the claimed emptiness of the pending-request registry fails at
the one-element event sequence consisting of the timeout alone: the caller
is settled exactly once with the Request-timeout failure, yet the tx_1000
entry is still present in pendingRequests afterwards, because the timeout
callback of waitForApproval removes the id only from approvalResolvers and
never from pendingRequests. -/
theorem c1_timeout_only_sequence_keeps_registry_entry :
    (processEvents envA "tx_1000" [.timeout] wSuspendedTx).settlements =
      [("tx_1000", .failure ⟨.USER_REJECTED, "Request timeout"⟩)] ∧
    mapGet "tx_1000" (processEvents envA "tx_1000" [.timeout] wSuspendedTx).pendingRequests =
      some reqTx :=
  ⟨rfl, rfl⟩

/-- Claim C2: when the timeout window elapses on a registered pending
request with no approval or rejection, the suspended caller is indeed
resumed with the USER_REJECTED Request-timeout failure and the waiter is
removed, but the pending-request registry still contains the entry for the
id afterwards: the PendingRequest is not destroyed on timeout. -/
theorem c2_timeout_resumes_caller_but_entry_remains :
    (fireTimeout "connect_7" wSuspendedConn).settlements =
      [("connect_7", .failure ⟨.USER_REJECTED, "Request timeout"⟩)] ∧
    (fireTimeout "connect_7" wSuspendedConn).approvalResolvers = [] ∧
    mapGet "connect_7" (fireTimeout "connect_7" wSuspendedConn).pendingRequests =
      some reqConn :=
  ⟨rfl, rfl, rfl⟩

/-- Claim C3 counterexample: when chrome.action.openPopup rejects during a
request_accounts dispatch from an unauthorized origin, the dispatch does
fail and the popup error is surfaced to the caller, and no approval
resolver is registered, so the caller is not suspended; this refutes the
claim that prompt-surface failure is never surfaced as an error. -/
theorem c3_popup_failure_surfaced_cex :
    (handleRequestAccounts envPopupFail "https://new.example" wEmpty).1 =
      .error (.jsError "could not open popup") ∧
    (handleRequestAccounts envPopupFail "https://new.example" wEmpty).2.approvalResolvers =
      [] :=
  ⟨rfl, rfl⟩

/-- Claim C3 as amended: for both consent-requiring dispatches, a failure
of the prompt surface propagates out of the handler as the thrown error
surfaced to the caller; the pending-request entry has been registered and
remains, but no approval waiter is registered, so the caller is not
suspended and no timeout is pending for the entry. -/
theorem c3_popup_failure_propagates (env : Env) (origin : String) (params : RPCParams)
    (w : World) (e : String) (hPopup : env.openPopup = .error e) :
    (isOriginConnected origin w = false →
      (handleRequestAccounts env origin w).1 = .error (.jsError e) ∧
      mapGet ("connect_" ++ toString env.now)
        (handleRequestAccounts env origin w).2.pendingRequests ≠ none ∧
      (handleRequestAccounts env origin w).2.approvalResolvers = w.approvalResolvers) ∧
    (isOriginConnected origin w = true → strFalsy params.«to» = false →
      (params.amount == none) = false →
      (handleSendTransaction env origin params w).1 = .error (.jsError e) ∧
      mapGet ("tx_" ++ toString env.now)
        (handleSendTransaction env origin params w).2.pendingRequests ≠ none ∧
      (handleSendTransaction env origin params w).2.approvalResolvers = w.approvalResolvers) := by
  constructor
  · intro hConn
    simp [handleRequestAccounts, hConn, hPopup, mapGet_mapSet_self]
  · intro hConn hTo hAmt
    simp [handleSendTransaction, hConn, hTo, hAmt, hPopup, mapGet_mapSet_self]

/-- Claim C3 witness: the amended statement evaluated at the failing-popup
fixture, for a request_accounts dispatch from an unauthorized origin and a
valid send_transaction dispatch from the connected origin. -/
theorem c3_popup_failure_propagates_witness :
    ((handleRequestAccounts envPopupFail "https://a.example" wEmpty).1 =
        .error (.jsError "could not open popup") ∧
      mapGet ("connect_" ++ toString envPopupFail.now)
        (handleRequestAccounts envPopupFail "https://a.example" wEmpty).2.pendingRequests ≠
          none ∧
      (handleRequestAccounts envPopupFail "https://a.example" wEmpty).2.approvalResolvers =
        wEmpty.approvalResolvers) ∧
    ((handleSendTransaction envPopupFail "https://dapp.example" txParamsA wConnectedOnly).1 =
        .error (.jsError "could not open popup") ∧
      mapGet ("tx_" ++ toString envPopupFail.now)
        (handleSendTransaction envPopupFail "https://dapp.example" txParamsA
            wConnectedOnly).2.pendingRequests ≠ none ∧
      (handleSendTransaction envPopupFail "https://dapp.example" txParamsA
          wConnectedOnly).2.approvalResolvers = wConnectedOnly.approvalResolvers) :=
  ⟨(c3_popup_failure_propagates envPopupFail "https://a.example" txParamsA wEmpty
      "could not open popup" rfl).1 rfl,
   (c3_popup_failure_propagates envPopupFail "https://dapp.example" txParamsA wConnectedOnly
      "could not open popup" rfl).2 rfl rfl rfl⟩

/-- Claim C4: while the session is locked, every dispatch whose method is
not GET_NETWORK fails with the UNAUTHORIZED Wallet-is-locked error and the
whole state, the pending-request registry included, is unchanged. -/
theorem c4_locked_session_unauthorized (env : Env) (origin : String) (method : RPCMethod)
    (params : RPCParams) (w : World) (hLocked : w.isUnlocked = false)
    (hMethod : method ≠ .GET_NETWORK) :
    handleRPCRequest env origin method params w =
      (.error (.rpc ⟨.UNAUTHORIZED, "Wallet is locked"⟩), w) := by
  unfold handleRPCRequest
  rw [if_pos ⟨hLocked, hMethod⟩]

/-- Claim C4 witness: a get_balance dispatch against the locked fixture
fails UNAUTHORIZED and leaves the state untouched. -/
theorem c4_locked_session_unauthorized_witness :
    handleRPCRequest envA "https://dapp.example" .GET_BALANCE txParamsA wLocked =
      (.error (.rpc ⟨.UNAUTHORIZED, "Wallet is locked"⟩), wLocked) :=
  c4_locked_session_unauthorized envA "https://dapp.example" .GET_BALANCE txParamsA wLocked
    rfl (by decide)

/-- Claim C5 counterexample: a send_transaction dispatch from the
connected origin with a missing destination fails with an error whose code
is UNSUPPORTED_METHOD, which is not the INVALID_PARAMS code the claim
names, with the state unchanged. -/
theorem c5_invalid_params_code_cex :
    (handleSendTransaction envA "https://dapp.example" noToParams wConnectedOnly).1 =
      .error (.rpc ⟨.UNSUPPORTED_METHOD, "Invalid transaction params"⟩) ∧
    ErrorCode.UNSUPPORTED_METHOD ≠ ErrorCode.INVALID_PARAMS ∧
    (handleSendTransaction envA "https://dapp.example" noToParams wConnectedOnly).2 =
      wConnectedOnly :=
  ⟨rfl, by decide, rfl⟩

/-- Claim C5 as amended: a send_transaction dispatch from an authorized
origin whose params lack a truthy destination or whose amount is undefined
fails with the UNSUPPORTED_METHOD Invalid-transaction-params error, and
the whole state, the pending-request registry included, is unchanged. -/
theorem c5_invalid_tx_params_unsupported_method (env : Env) (origin : String)
    (params : RPCParams) (w : World)
    (hConn : isOriginConnected origin w = true)
    (hBad : (strFalsy params.«to» || params.amount == none) = true) :
    handleSendTransaction env origin params w =
      (.error (.rpc ⟨.UNSUPPORTED_METHOD, "Invalid transaction params"⟩), w) := by
  simp [handleSendTransaction, hConn, hBad]

/-- Claim C5 witness: the amended statement evaluated at the connected
origin with params lacking the destination field. -/
theorem c5_invalid_tx_params_witness :
    handleSendTransaction envA "https://dapp.example" noToParams wConnectedOnly =
      (.error (.rpc ⟨.UNSUPPORTED_METHOD, "Invalid transaction params"⟩), wConnectedOnly) :=
  c5_invalid_tx_params_unsupported_method envA "https://dapp.example" noToParams
    wConnectedOnly rfl rfl

/-- Claim C6: two unauthorized request_accounts registrations processed at
the same Date.now reading generate the same id connect_1000, so the second
registration overwrites the first and the registry holds a single entry,
the one of the later origin; id uniqueness is not enforced at generation
time. -/
theorem c6_same_millisecond_id_collision :
    wCollide.pendingRequests.length = 1 ∧
    (mapGet "connect_1000" wCollide.pendingRequests).map DAppRequest.origin =
      some "https://b.example" :=
  ⟨rfl, rfl⟩

/-- Claim C7: approving a registered pending transaction whose submission
the Wallet Authority rejects returns success to the approval channel while
the suspended caller is settled with the DISCONNECTED failure carrying the
Authority message, the pending entry is removed, and the Authority submit
operation was invoked exactly once more, so the raw error is not
propagated and the submission is not retried. -/
theorem c7_tx_approval_authority_failure (env : Env) (requestId : String)
    (req : DAppRequest) (msg : String) (w : World)
    (hPending : mapGet requestId w.pendingRequests = some req)
    (hResolver : w.approvalResolvers.contains requestId = true)
    (hAuthority : env.sendTransactionResult = .error msg) :
    (handleTransactionApproval env requestId true w).1 = .ok () ∧
    (handleTransactionApproval env requestId true w).2.settlements =
      w.settlements ++ [(requestId, .failure ⟨.DISCONNECTED, msg⟩)] ∧
    mapGet requestId (handleTransactionApproval env requestId true w).2.pendingRequests =
      none ∧
    (handleTransactionApproval env requestId true w).2.submitCalls = w.submitCalls + 1 := by
  have hmem : requestId ∈ w.approvalResolvers := by simpa using hResolver
  simp [handleTransactionApproval, hPending, hAuthority, rejectApproval, hmem,
    mapGet_mapDelete_self]

/-- Claim C7 witness: the statement evaluated at the suspended tx_1000
fixture with a failing Authority. -/
theorem c7_tx_approval_authority_failure_witness :
    (handleTransactionApproval envTxFail "tx_1000" true wSuspendedTx).1 = .ok () ∧
    (handleTransactionApproval envTxFail "tx_1000" true wSuspendedTx).2.settlements =
      wSuspendedTx.settlements ++ [("tx_1000", .failure ⟨.DISCONNECTED, "Insufficient funds"⟩)] ∧
    mapGet "tx_1000"
      (handleTransactionApproval envTxFail "tx_1000" true wSuspendedTx).2.pendingRequests =
        none ∧
    (handleTransactionApproval envTxFail "tx_1000" true wSuspendedTx).2.submitCalls =
      wSuspendedTx.submitCalls + 1 :=
  c7_tx_approval_authority_failure envTxFail "tx_1000" reqTx "Insufficient funds"
    wSuspendedTx rfl rfl rfl

/-- Claim C8 counterexample: dispatching the exempt GET_NETWORK query while
the session is locked and no inactivity timer is armed does arm the timer,
refuting the claim that the rearm is a no-op while locked. -/
theorem c8_get_network_locked_arms_timer_cex :
    wLocked.sessionTimerArmed = false ∧
    (handleRPCRequest envA "https://dapp.example" .GET_NETWORK txParamsA
        wLocked).2.sessionTimerArmed = true :=
  ⟨rfl, rfl⟩

/-- Claim C8 as amended: resetSessionTimeout runs unconditionally after
the locked-session gate, so a GET_NETWORK dispatch while locked succeeds
with the network identity and leaves the state with the inactivity timer
armed. -/
theorem c8_get_network_locked_arms_timer (env : Env) (origin : String) (params : RPCParams)
    (w : World) (hLocked : w.isUnlocked = false) :
    handleRPCRequest env origin .GET_NETWORK params w =
      (.ok (.value (.network env.network)), { w with sessionTimerArmed := true }) := by
  unfold handleRPCRequest
  rw [if_neg (fun h => h.2 rfl)]
  rfl

/-- Claim C8 witness: the amended statement evaluated at the locked
fixture. -/
theorem c8_get_network_locked_arms_timer_witness :
    handleRPCRequest envA "https://dapp.example" .GET_NETWORK txParamsA wLocked =
      (.ok (.value (.network envA.network)), { wLocked with sessionTimerArmed := true }) :=
  c8_get_network_locked_arms_timer envA "https://dapp.example" txParamsA wLocked rfl

/-- Claim C9: approving a connection whose waiter was already removed by
timeout while its pending entry is still registered records the origin via
addConnectedSite, making it authorized, deletes the pending entry, and
reports success, while no settlement reaches any caller. -/
theorem c9_connection_approval_after_waiter_timeout (env : Env) (requestId : String)
    (req : DAppRequest) (w : World)
    (hPending : mapGet requestId w.pendingRequests = some req)
    (hNoResolver : w.approvalResolvers.contains requestId = false) :
    (handleConnectionApproval env requestId true w).1 = .ok () ∧
    (handleConnectionApproval env requestId true w).2.connectedSites =
      addConnectedSite req.origin w.connectedSites ∧
    isOriginConnected req.origin (handleConnectionApproval env requestId true w).2 = true ∧
    mapGet requestId (handleConnectionApproval env requestId true w).2.pendingRequests =
      none ∧
    (handleConnectionApproval env requestId true w).2.settlements = w.settlements := by
  have hmem : requestId ∉ w.approvalResolvers := by simpa using hNoResolver
  simp [handleConnectionApproval, hPending, resolveApproval, hmem,
    mapGet_mapDelete_self, isOriginConnected, mem_addConnectedSite_self]

/-- Claim C9 witness: the statement evaluated at the timed-out connect_7
fixture. -/
theorem c9_connection_approval_after_waiter_timeout_witness :
    (handleConnectionApproval envA "connect_7" true wConnTimedOut).1 = .ok () ∧
    (handleConnectionApproval envA "connect_7" true wConnTimedOut).2.connectedSites =
      addConnectedSite reqConn.origin wConnTimedOut.connectedSites ∧
    isOriginConnected reqConn.origin
      (handleConnectionApproval envA "connect_7" true wConnTimedOut).2 = true ∧
    mapGet "connect_7"
      (handleConnectionApproval envA "connect_7" true wConnTimedOut).2.pendingRequests =
        none ∧
    (handleConnectionApproval envA "connect_7" true wConnTimedOut).2.settlements =
      wConnTimedOut.settlements :=
  c9_connection_approval_after_waiter_timeout envA "connect_7" reqConn wConnTimedOut rfl rfl

/-- Claim C10: a get_balance dispatch whose address parameter is falsy
fails with the UNSUPPORTED_METHOD Address-is-required error and the whole
state is unchanged, so the Wallet Authority balance query is not
invoked. -/
theorem c10_get_balance_missing_address (env : Env) (params : RPCParams) (w : World)
    (hAddr : strFalsy params.address = true) :
    handleGetBalance env params w =
      (.error (.rpc ⟨.UNSUPPORTED_METHOD, "Address is required"⟩), w) := by
  rcases hA : params.address with _ | a
  · simp [handleGetBalance, hA]
  · simp [strFalsy, hA] at hAddr
    simp [handleGetBalance, hA, hAddr]

/-- Claim C10 witness: the statement evaluated at params with no address
field. -/
theorem c10_get_balance_missing_address_witness :
    handleGetBalance envA emptyParams wEmpty =
      (.error (.rpc ⟨.UNSUPPORTED_METHOD, "Address is required"⟩), wEmpty) :=
  c10_get_balance_missing_address envA emptyParams wEmpty rfl
